import Mathlib

/-!
Shallow embedding of the uKernel cooperative scheduler (src/uKernel.c,
src/uKernel.h).

Descriptors are caller-owned records addressed by natural numbers; a C
pointer is `Option Addr` with `none` as NULL.  The process-wide globals
`_initialized`, `_counterMs`, `_numberTasks`, `pTaskSchedule`,
`pTaskFirst` together with the caller-owned descriptor storage form one
explicit `KernelState`.  Machine integers are `Nat` with `% 2 ^ 32`
(resp. `% 2 ^ 8`) taken exactly where the C arithmetic overflows.
Fallible steps (NULL dereference, reads of unallocated storage, and the
unbounded ring walks of `uKernelAddTask` / `uKernelRemoveTask`, which the
C code performs with `while` loops) return `Option`, with `none` standing
for undefined behaviour or divergence; the walks take fuel
`heap.length + 1`, enough for any terminating C traversal since a
terminating walk never revisits a descriptor.
-/

namespace UKernel

/-- `#define MAX_TASKS_NUMBER 255` (uKernel.h). -/
def MAX_TASKS_NUMBER : Nat := 255

/-- `#define MAX_TASK_INTERVAL 3600000UL` (uKernel.h). -/
def MAX_TASK_INTERVAL : Nat := 3600000

/-- `uKernel_PAUSED = 0x00` (uKernel.h). -/
def uKernel_PAUSED : Nat := 0x00

/-- `uKernel_SCHEDULED = 0x01` (uKernel.h). -/
def uKernel_SCHEDULED : Nat := 0x01

/-- `uKernel_ONETIME = 0x02` (uKernel.h). -/
def uKernel_ONETIME : Nat := 0x02

/-- `uKernel_IMMEDIATESTART = 0x05` (uKernel.h). -/
def uKernel_IMMEDIATESTART : Nat := 0x05

/-- `uKernel_ONETIME_IMMEDIATESTART = 0x07` (uKernel.h). -/
def uKernel_ONETIME_IMMEDIATESTART : Nat := 0x07

/-- `uKernel_ERROR = 0xFF` (uKernel.h). -/
def uKernel_ERROR : Nat := 0xFF

/-- Modulus of the 32-bit unsigned tick/interval arithmetic. -/
def UINT32_MOD : Nat := 4294967296

/-- Addresses of caller-owned descriptor storage. -/
abbrev Addr := Nat

/-- A C descriptor pointer: `none` is NULL. -/
abbrev Ptr := Option Addr

/-- `uint32_t` addition as the C code performs it. -/
def add32 (a b : Nat) : Nat := (a + b) % UINT32_MOD

/-- `uint32_t` subtraction `a - b` as the C code performs it. -/
def sub32 (a b : Nat) : Nat :=
  (a % UINT32_MOD + (UINT32_MOD - b % UINT32_MOD)) % UINT32_MOD

/-- The value of `(int32_t) v` for a `uint32_t` value `v`. -/
def toInt32 (v : Nat) : Int :=
  if v % UINT32_MOD < 2147483648 then ((v % UINT32_MOD : Nat) : Int)
  else ((v % UINT32_MOD : Nat) : Int) - (UINT32_MOD : Int)

/-- The dispatch loop's due test
`(int32_t) (_counterMs - pTaskSchedule->plannedTask) >= 0` (uKernel.c:210). -/
def isDue (counterMs plannedTask : Nat) : Bool :=
  decide (0 ≤ toInt32 (sub32 counterMs plannedTask))

/-- `struct _uKernelTaskDescriptor` (uKernel.h).  `taskPointer` holds an
opaque callback identifier, `0` standing for a NULL function pointer. -/
structure uKernelTaskDescriptor where
  taskPointer : Nat
  userTasksInterval : Nat
  plannedTask : Nat
  taskStatus : Nat
  pTaskNext : Ptr
deriving Repr, DecidableEq

/-- The caller-owned descriptor storage: an association list from
addresses to descriptor records. -/
abbrev Heap := List (Addr × uKernelTaskDescriptor)

/-- Read the descriptor stored at address `a` (`none`: unallocated). -/
def heapGet (h : Heap) (a : Addr) : Option uKernelTaskDescriptor :=
  match h with
  | [] => none
  | (b, d) :: t => if b = a then some d else heapGet t a

/-- Write the descriptor at address `a` (allocating it if absent, as the C
caller's storage always exists). -/
def heapSet (h : Heap) (a : Addr) (d : uKernelTaskDescriptor) : Heap :=
  match h with
  | [] => [(a, d)]
  | (b, e) :: t => if b = a then (b, d) :: t else (b, e) :: heapSet t a d

/-- The scheduler's process-wide state: the globals of uKernel.c plus the
descriptor storage. -/
structure KernelState where
  initialized : Bool
  counterMs : Nat
  numberTasks : Nat
  pTaskSchedule : Ptr
  pTaskFirst : Ptr
  heap : Heap
deriving Repr, DecidableEq

/-- `uKernelInit` (uKernel.c:29-35): sets `_initialized`, zeroes
`_counterMs` and `_numberTasks`, NULLs `pTaskSchedule`.  The static
`pTaskFirst` is not assigned by the function. -/
def uKernelInit (s : KernelState) : KernelState :=
  { s with initialized := true, counterMs := 0, numberTasks := 0,
           pTaskSchedule := none }

/-- The `while (pTaskWork->pTaskNext != pTaskFirst)` walk of
`uKernelAddTask` (uKernel.c:69-73), with fuel; returns the address of the
last ring member (the one whose `pTaskNext` is `first`). -/
def findLastTask (h : Heap) (first : Ptr) : Ptr → Nat → Option Addr
  | _, 0 => none
  | none, _ + 1 => none
  | some a, fuel + 1 =>
    match heapGet h a with
    | none => none
    | some d =>
      if d.pTaskNext = first then some a
      else findLastTask h first d.pTaskNext fuel

/-- `uKernelAddTask` (uKernel.c:37-111).  Result `none` models undefined
behaviour (invalid dereference) or a diverging ring walk. -/
def uKernelAddTask (s : KernelState) (pTaskDescriptor : Ptr) (userTask : Nat)
    (taskInterval : Nat) (taskStatus : Nat) : Option (Bool × KernelState) :=
  if s.initialized = false ∨ s.numberTasks = MAX_TASKS_NUMBER ∨ userTask = 0 then
    some (false, s)
  else
    let taskInterval' :=
      if taskInterval < 1 ∨ taskInterval > MAX_TASK_INTERVAL then 50
      else taskInterval
    let taskStatus' :=
      if taskStatus > uKernel_ONETIME_IMMEDIATESTART then uKernel_SCHEDULED
      else taskStatus
    match pTaskDescriptor with
    | none =>
      -- Purge-all branch (uKernel.c:102-110): only the two ring pointers
      -- are assigned.
      some (true, { s with pTaskFirst := none, pTaskSchedule := none })
    | some addr =>
      let newD : uKernelTaskDescriptor :=
        { taskPointer := userTask
          userTasksInterval := taskInterval'
          plannedTask :=
            add32 s.counterMs (if taskStatus' &&& 0x04 ≠ 0 then 0 else taskInterval')
          taskStatus := taskStatus' &&& 0x03
          pTaskNext := none }
      match s.pTaskFirst with
      | some _ =>
        match findLastTask s.heap s.pTaskFirst s.pTaskSchedule (s.heap.length + 1) with
        | none => none
        | some lastAddr =>
          match heapGet s.heap lastAddr with
          | none => none
          | some lastD =>
            let h1 := heapSet s.heap lastAddr { lastD with pTaskNext := some addr }
            some (true,
              { s with heap := heapSet h1 addr { newD with pTaskNext := s.pTaskFirst },
                       numberTasks := (s.numberTasks + 1) % 256 })
      | none =>
        some (true,
          { s with pTaskFirst := some addr, pTaskSchedule := some addr,
                   heap := heapSet s.heap addr { newD with pTaskNext := some addr },
                   numberTasks := (s.numberTasks + 1) % 256 })

/-- The `while (pTaskCurr->pTaskNext != pTaskDescriptor)` walk of
`uKernelRemoveTask` (uKernel.c:126-130), with fuel; returns the address of
the predecessor of `target`. -/
def findPredTask (h : Heap) (target : Addr) : Ptr → Nat → Option Addr
  | _, 0 => none
  | none, _ + 1 => none
  | some a, fuel + 1 =>
    match heapGet h a with
    | none => none
    | some d =>
      if d.pTaskNext = some target then some a
      else findPredTask h target d.pTaskNext fuel

/-- `uKernelRemoveTask` (uKernel.c:113-144). -/
def uKernelRemoveTask (s : KernelState) (pTaskDescriptor : Ptr) :
    Option (Bool × KernelState) :=
  match pTaskDescriptor with
  | none => some (false, s)
  | some target =>
    if s.initialized = false ∨ s.numberTasks = 0 then some (false, s)
    else
      match findPredTask s.heap target s.pTaskFirst (s.heap.length + 1) with
      | none => none
      | some predAddr =>
        match heapGet s.heap predAddr with
        | none => none
        | some predD =>
          if predD.pTaskNext = s.pTaskFirst then
            -- `pTaskFirst = pTaskCurr->pTaskNext->pTaskNext` (uKernel.c:134);
            -- the predecessor's own link is not rewritten in this branch.
            match predD.pTaskNext with
            | none => none
            | some fa =>
              match heapGet s.heap fa with
              | none => none
              | some fd =>
                some (true, { s with pTaskFirst := fd.pTaskNext,
                                     numberTasks := s.numberTasks - 1 })
          else
            match heapGet s.heap target with
            | none => none
            | some td =>
              some (true,
                { s with heap := heapSet s.heap predAddr
                           { predD with pTaskNext := td.pTaskNext },
                         numberTasks := s.numberTasks - 1 })

/-- `uKernelSetTask` (uKernel.c:246-273).  `taskInterval == NULL` in C is
`taskInterval = 0`. -/
def uKernelSetTask (s : KernelState) (pTaskDescriptor : Ptr)
    (taskInterval : Nat) (tStatus : Nat) : Option (Bool × KernelState) :=
  match pTaskDescriptor with
  | none => some (false, s)
  | some a =>
    if s.initialized = false ∨ s.numberTasks = MAX_TASKS_NUMBER then
      some (false, s)
    else
      match heapGet s.heap a with
      | none => none
      | some d =>
        let d1 := { d with taskStatus := tStatus }
        let d2 :=
          if tStatus = uKernel_SCHEDULED then
            if taskInterval = 0 then
              { d1 with plannedTask := add32 s.counterMs d.userTasksInterval }
            else
              { d1 with plannedTask := add32 s.counterMs taskInterval }
          else d1
        some (true, { s with heap := heapSet s.heap a d2 })

/-- `uKernelPauseTask` (uKernel.c:146-149). -/
def uKernelPauseTask (s : KernelState) (pTaskDescriptor : Ptr) :
    Option (Bool × KernelState) :=
  uKernelSetTask s pTaskDescriptor 0 uKernel_PAUSED

/-- `uKernelResumeTask` (uKernel.c:151-154). -/
def uKernelResumeTask (s : KernelState) (pTaskDescriptor : Ptr)
    (taskStatus : Nat) : Option (Bool × KernelState) :=
  uKernelSetTask s pTaskDescriptor 0 taskStatus

/-- `uKernelModifyTask` (uKernel.c:156-184). -/
def uKernelModifyTask (s : KernelState) (pTaskDescriptor : Ptr)
    (taskInterval : Nat) (tStatus : Nat) : Option (Bool × KernelState) :=
  match pTaskDescriptor with
  | none => some (false, s)
  | some a =>
    if s.initialized = false ∨ s.numberTasks = MAX_TASKS_NUMBER then
      some (false, s)
    else if tStatus > uKernel_ONETIME_IMMEDIATESTART then
      some (false, s)
    else
      match heapGet s.heap a with
      | none => none
      | some d =>
        let d1 := { d with userTasksInterval := taskInterval,
                           taskStatus := tStatus }
        let d2 :=
          if tStatus = uKernel_SCHEDULED ∨ tStatus = uKernel_ONETIME then
            { d1 with plannedTask := add32 s.counterMs taskInterval }
          else
            { d1 with plannedTask := 0 }
        some (true, { s with heap := heapSet s.heap a d2 })

/-- `uKernelGetTaskStatus` (uKernel.c:186-195).  Result `none` models a
read of unallocated storage. -/
def uKernelGetTaskStatus (s : KernelState) (pTaskDescriptor : Ptr) :
    Option Nat :=
  match pTaskDescriptor with
  | none => some uKernel_ERROR
  | some a =>
    if s.initialized = false ∨ s.numberTasks = MAX_TASKS_NUMBER then
      some uKernel_ERROR
    else (heapGet s.heap a).map (fun d => d.taskStatus)

/-- One iteration of the `while (1)` body of `uKernelScheduler`
(uKernel.c:200-238), excluding the external `ClrWdt()` collaborator.
Callbacks are opaque to the scheduler state (they are recorded, not run),
so the post-call NULL recheck of uKernel.c:229 — which only matters when a
callback purges the ring — always takes its non-NULL branch here.  The
returned event is the address whose callback was invoked, if any. -/
def uKernelSchedulerStep (s : KernelState) :
    Option (KernelState × Option Addr) :=
  match s.pTaskSchedule with
  | none => some (s, none)
  | some a =>
    if s.numberTasks = 0 then some (s, none)
    else
      match heapGet s.heap a with
      | none => none
      | some d =>
        let dPaused := { d with taskStatus := uKernel_PAUSED }
        let dResched := { d with plannedTask := add32 s.counterMs d.userTasksInterval }
        let fireStep : KernelState × Option Addr :=
          if d.taskStatus > uKernel_PAUSED then
            if isDue s.counterMs d.plannedTask then
              if d.taskStatus &&& uKernel_ONETIME ≠ 0 then
                ({ s with heap := heapSet s.heap a dPaused }, some a)
              else
                ({ s with heap := heapSet s.heap a dResched }, some a)
            else (s, none)
          else (s, none)
        match heapGet fireStep.1.heap a with
        | none => none
        | some d' =>
          some ({ fireStep.1 with pTaskSchedule := d'.pTaskNext }, fireStep.2)

/-- `n` iterations of the dispatch loop, collecting the fired addresses in
order. -/
def uKernelSchedulerRun (s : KernelState) : Nat → Option (KernelState × List Addr)
  | 0 => some (s, [])
  | n + 1 =>
    match uKernelSchedulerStep s with
    | none => none
    | some (s1, ev) =>
      match uKernelSchedulerRun s1 n with
      | none => none
      | some (s2, evs) => some (s2, ev.toList ++ evs)

/-- `uint32_t newTime = _counterMs + delay` of `uKernelDelayMiliseconds`
(uKernel.c:242). -/
def uKernelDelayNewTime (counterMs delay : Nat) : Nat := add32 counterMs delay

/-- The busy-wait guard `_counterMs < newTime` of `uKernelDelayMiliseconds`
(uKernel.c:243): `true` means the loop keeps spinning at the given counter
value. -/
def uKernelDelayContinue (counterMs newTime : Nat) : Bool :=
  counterMs % UINT32_MOD < newTime

/-- The stored status of the descriptor at `a`, if `a` is allocated. -/
def statusAt (s : KernelState) (a : Addr) : Option Nat :=
  (heapGet s.heap a).map (fun d => d.taskStatus)

/-! ### Concrete fixture states used by witnesses and counterexamples -/

/-- Ring head H at address 1 (H → B). -/
def dH : uKernelTaskDescriptor :=
  { taskPointer := 10, userTasksInterval := 100, plannedTask := 100,
    taskStatus := 1, pTaskNext := some 2 }

/-- Ring member B at address 2 (B → C). -/
def dB : uKernelTaskDescriptor :=
  { taskPointer := 11, userTasksInterval := 100, plannedTask := 100,
    taskStatus := 1, pTaskNext := some 3 }

/-- Ring member C at address 3 (C → H). -/
def dC : uKernelTaskDescriptor :=
  { taskPointer := 12, userTasksInterval := 100, plannedTask := 100,
    taskStatus := 1, pTaskNext := some 1 }

/-- Initialized scheduler with the three-member ring H, B, C. -/
def s3 : KernelState :=
  { initialized := true, counterMs := 0, numberTasks := 3,
    pTaskSchedule := some 1, pTaskFirst := some 1,
    heap := [(1, dH), (2, dB), (3, dC)] }

/-- The same three-member ring at tick 200, when all three are due. -/
def s3c : KernelState := { s3 with counterMs := 200 }

/-- A one-shot descriptor at address 1, due immediately. -/
def dOne : uKernelTaskDescriptor :=
  { taskPointer := 9, userTasksInterval := 50, plannedTask := 0,
    taskStatus := 2, pTaskNext := some 1 }

/-- Initialized scheduler holding only the one-shot task `dOne`. -/
def sOne : KernelState :=
  { initialized := true, counterMs := 5, numberTasks := 1,
    pTaskSchedule := some 1, pTaskFirst := some 1,
    heap := [(1, dOne)] }

/-- `sOne` after its one-shot task has fired: the task is `Paused`. -/
def sOnePost : KernelState :=
  { sOne with heap := [(1, { dOne with taskStatus := uKernel_PAUSED })] }

/-- Freshly initialized scheduler with an empty ring and empty storage. -/
def sE : KernelState :=
  { initialized := true, counterMs := 0, numberTasks := 0,
    pTaskSchedule := none, pTaskFirst := none, heap := [] }

/-- `sE` after registering descriptor 1 with status `OneTime`. -/
def sEone : KernelState :=
  { sE with numberTasks := 1, pTaskSchedule := some 1, pTaskFirst := some 1,
            heap := [(1, { taskPointer := 5, userTasksInterval := 100,
                           plannedTask := 100, taskStatus := 2,
                           pTaskNext := some 1 })] }

/-- `sE` after registering descriptor 1 with out-of-range interval 0 and
out-of-range status `0xFF`. -/
def sE255 : KernelState :=
  { sE with numberTasks := 1, pTaskSchedule := some 1, pTaskFirst := some 1,
            heap := [(1, { taskPointer := 5, userTasksInterval := 50,
                           plannedTask := 50, taskStatus := 1,
                           pTaskNext := some 1 })] }

/-- Initialized scheduler with one registered task, used for mutation
counterexamples. -/
def sM : KernelState :=
  { initialized := true, counterMs := 0, numberTasks := 1,
    pTaskSchedule := some 1, pTaskFirst := some 1,
    heap := [(1, dOne)] }

/-- `sM` after `uKernelPauseTask` on descriptor 1. -/
def sMPaused : KernelState :=
  { sM with heap := [(1, { dOne with taskStatus := uKernel_PAUSED })] }

/-- Initialized scheduler at full capacity (`numberTasks = 255`) with a
registered, non-null descriptor at address 1. -/
def sFull : KernelState :=
  { initialized := true, counterMs := 0, numberTasks := 255,
    pTaskSchedule := some 1, pTaskFirst := some 1,
    heap := [(1, dOne)] }

/-- Uninitialized scheduler that still holds the three-member ring. -/
def sU : KernelState := { s3 with initialized := false }

/-- A scheduled task whose due tick `4294967290 = MAX - 5` was set just
before the 32-bit tick counter wrapped. -/
def dWrap : uKernelTaskDescriptor :=
  { taskPointer := 9, userTasksInterval := 100, plannedTask := 4294967290,
    taskStatus := 1, pTaskNext := some 1 }

/-- Scheduler examining `dWrap` after the counter wrapped to 3. -/
def sWrap : KernelState :=
  { initialized := true, counterMs := 3, numberTasks := 1,
    pTaskSchedule := some 1, pTaskFirst := some 1,
    heap := [(1, dWrap)] }

/-! ### Heap lemmas -/

theorem heapGet_heapSet_self (h : Heap) (a : Addr) (d : uKernelTaskDescriptor) :
    heapGet (heapSet h a d) a = some d := by
  induction h with
  | nil => simp [heapSet, heapGet]
  | cons p t ih =>
    obtain ⟨b, e⟩ := p
    by_cases hb : b = a
    · simp [heapSet, heapGet, hb]
    · simp [heapSet, heapGet, hb, ih]

theorem heapGet_heapSet_ne (h : Heap) (a b : Addr) (d : uKernelTaskDescriptor)
    (hne : b ≠ a) : heapGet (heapSet h a d) b = heapGet h b := by
  induction h with
  | nil => simp [heapSet, heapGet, Ne.symm hne]
  | cons p t ih =>
    obtain ⟨c, e⟩ := p
    by_cases hc : c = a
    · subst hc
      simp [heapSet, heapGet, Ne.symm hne]
    · simp only [heapSet, if_neg hc, heapGet]
      by_cases hcb : c = b <;> simp [hcb, ih]

/-! ### Scheduler-step lemmas -/

theorem schedulerStep_eval (s : KernelState) (a : Addr) (d : uKernelTaskDescriptor)
    (hc : s.pTaskSchedule = some a) (hn : s.numberTasks ≠ 0)
    (hd : heapGet s.heap a = some d) :
    uKernelSchedulerStep s =
      if d.taskStatus > uKernel_PAUSED then
        if isDue s.counterMs d.plannedTask then
          if d.taskStatus &&& uKernel_ONETIME ≠ 0 then
            some ({ s with
                      heap := heapSet s.heap a { d with taskStatus := uKernel_PAUSED },
                      pTaskSchedule := d.pTaskNext }, some a)
          else
            some ({ s with
                      heap := heapSet s.heap a
                        { d with plannedTask := add32 s.counterMs d.userTasksInterval },
                      pTaskSchedule := d.pTaskNext }, some a)
        else some ({ s with pTaskSchedule := d.pTaskNext }, none)
      else some ({ s with pTaskSchedule := d.pTaskNext }, none) := by
  unfold uKernelSchedulerStep
  rw [hc]
  dsimp only
  rw [if_neg hn, hd]
  dsimp only
  by_cases h1 : d.taskStatus > uKernel_PAUSED
  · rw [if_pos h1, if_pos h1]
    cases hdue : isDue s.counterMs d.plannedTask
    · simp only [hdue, Bool.false_eq_true, if_false, hd]
    · simp only [hdue, if_true]
      by_cases h3 : d.taskStatus &&& uKernel_ONETIME ≠ 0
      · rw [if_pos h3, if_pos h3]
        simp only [heapGet_heapSet_self]
      · rw [if_neg h3, if_neg h3]
        simp only [heapGet_heapSet_self]
  · rw [if_neg h1, if_neg h1]
    simp only [hd]

theorem schedulerStep_statusAt (s s' : KernelState) (ev : Option Addr) (b : Addr)
    (h : uKernelSchedulerStep s = some (s', ev)) :
    statusAt s' b = statusAt s b ∨ statusAt s' b = some uKernel_PAUSED := by
  cases hc : s.pTaskSchedule with
  | none =>
    unfold uKernelSchedulerStep at h
    rw [hc] at h
    rw [Option.some.injEq, Prod.mk.injEq] at h
    obtain ⟨h1, -⟩ := h
    subst h1
    exact Or.inl rfl
  | some a =>
    by_cases hn : s.numberTasks = 0
    · unfold uKernelSchedulerStep at h
      rw [hc] at h
      dsimp only at h
      rw [if_pos hn] at h
      rw [Option.some.injEq, Prod.mk.injEq] at h
      obtain ⟨h1, -⟩ := h
      subst h1
      exact Or.inl rfl
    · cases hd : heapGet s.heap a with
      | none =>
        unfold uKernelSchedulerStep at h
        rw [hc] at h
        dsimp only at h
        rw [if_neg hn, hd] at h
        exact Option.noConfusion h
      | some d =>
        rw [schedulerStep_eval s a d hc hn hd] at h
        split_ifs at h with h1 h2 h3 <;>
          (rw [Option.some.injEq, Prod.mk.injEq] at h
           obtain ⟨hs, -⟩ := h
           subst hs)
        · by_cases hb : b = a
          · subst hb
            right
            simp [statusAt, heapGet_heapSet_self]
          · left
            simp [statusAt, heapGet_heapSet_ne _ _ _ _ hb]
        · by_cases hb : b = a
          · subst hb
            left
            simp [statusAt, heapGet_heapSet_self, hd]
          · left
            simp [statusAt, heapGet_heapSet_ne _ _ _ _ hb]
        · exact Or.inl rfl
        · exact Or.inl rfl

theorem schedulerStep_paused (s s' : KernelState) (ev : Option Addr) (a : Addr)
    (h : uKernelSchedulerStep s = some (s', ev))
    (hp : statusAt s a = some uKernel_PAUSED) :
    statusAt s' a = some uKernel_PAUSED ∧ ev ≠ some a := by
  cases hc : s.pTaskSchedule with
  | none =>
    unfold uKernelSchedulerStep at h
    rw [hc] at h
    rw [Option.some.injEq, Prod.mk.injEq] at h
    obtain ⟨h1, h2⟩ := h
    subst h1; subst h2
    exact ⟨hp, by simp⟩
  | some b =>
    by_cases hn : s.numberTasks = 0
    · unfold uKernelSchedulerStep at h
      rw [hc] at h
      dsimp only at h
      rw [if_pos hn] at h
      rw [Option.some.injEq, Prod.mk.injEq] at h
      obtain ⟨h1, h2⟩ := h
      subst h1; subst h2
      exact ⟨hp, by simp⟩
    · cases hd : heapGet s.heap b with
      | none =>
        unfold uKernelSchedulerStep at h
        rw [hc] at h
        dsimp only at h
        rw [if_neg hn, hd] at h
        exact Option.noConfusion h
      | some d =>
        rw [schedulerStep_eval s b d hc hn hd] at h
        by_cases hb : b = a
        · subst hb
          have hst : d.taskStatus = uKernel_PAUSED := by
            rw [statusAt, hd] at hp
            exact Option.some.inj hp
          rw [if_neg (by rw [hst]; exact lt_irrefl _)] at h
          rw [Option.some.injEq, Prod.mk.injEq] at h
          obtain ⟨h1, h2⟩ := h
          subst h1; subst h2
          exact ⟨hp, by simp⟩
        · split_ifs at h with h1 h2 h3 <;>
            (rw [Option.some.injEq, Prod.mk.injEq] at h
             obtain ⟨hs, hev⟩ := h
             subst hs; subst hev)
          · refine ⟨?_, by simpa using hb⟩
            unfold statusAt
            dsimp only
            rw [heapGet_heapSet_ne _ _ _ _ (Ne.symm hb)]
            exact hp
          · refine ⟨?_, by simpa using hb⟩
            unfold statusAt
            dsimp only
            rw [heapGet_heapSet_ne _ _ _ _ (Ne.symm hb)]
            exact hp
          · exact ⟨hp, by simp⟩
          · exact ⟨hp, by simp⟩

theorem schedulerStep_onetime (s s' : KernelState) (ev : Option Addr) (a : Addr)
    (h : uKernelSchedulerStep s = some (s', ev))
    (hp : statusAt s a = some uKernel_ONETIME) :
    (ev ≠ some a ∧ statusAt s' a = some uKernel_ONETIME) ∨
    (ev = some a ∧ statusAt s' a = some uKernel_PAUSED) := by
  cases hc : s.pTaskSchedule with
  | none =>
    unfold uKernelSchedulerStep at h
    rw [hc] at h
    rw [Option.some.injEq, Prod.mk.injEq] at h
    obtain ⟨h1, h2⟩ := h
    subst h1; subst h2
    exact Or.inl ⟨by simp, hp⟩
  | some b =>
    by_cases hn : s.numberTasks = 0
    · unfold uKernelSchedulerStep at h
      rw [hc] at h
      dsimp only at h
      rw [if_pos hn] at h
      rw [Option.some.injEq, Prod.mk.injEq] at h
      obtain ⟨h1, h2⟩ := h
      subst h1; subst h2
      exact Or.inl ⟨by simp, hp⟩
    · cases hd : heapGet s.heap b with
      | none =>
        unfold uKernelSchedulerStep at h
        rw [hc] at h
        dsimp only at h
        rw [if_neg hn, hd] at h
        exact Option.noConfusion h
      | some d =>
        rw [schedulerStep_eval s b d hc hn hd] at h
        by_cases hb : b = a
        · subst hb
          have hst : d.taskStatus = uKernel_ONETIME := by
            rw [statusAt, hd] at hp
            exact Option.some.inj hp
          rw [hst] at h
          rw [if_pos (by decide)] at h
          cases hdue : isDue s.counterMs d.plannedTask
          · rw [hdue] at h
            rw [if_neg (by simp)] at h
            rw [Option.some.injEq, Prod.mk.injEq] at h
            obtain ⟨h1, h2⟩ := h
            subst h1; subst h2
            exact Or.inl ⟨by simp, hp⟩
          · rw [hdue] at h
            rw [if_pos rfl, if_pos (by decide)] at h
            rw [Option.some.injEq, Prod.mk.injEq] at h
            obtain ⟨h1, h2⟩ := h
            subst h1; subst h2
            refine Or.inr ⟨rfl, ?_⟩
            unfold statusAt
            dsimp only
            rw [heapGet_heapSet_self]
            rfl
        · split_ifs at h with h1 h2 h3 <;>
            (rw [Option.some.injEq, Prod.mk.injEq] at h
             obtain ⟨hs, hev⟩ := h
             subst hs; subst hev)
          · refine Or.inl ⟨by simpa using hb, ?_⟩
            unfold statusAt
            dsimp only
            rw [heapGet_heapSet_ne _ _ _ _ (Ne.symm hb)]
            exact hp
          · refine Or.inl ⟨by simpa using hb, ?_⟩
            unfold statusAt
            dsimp only
            rw [heapGet_heapSet_ne _ _ _ _ (Ne.symm hb)]
            exact hp
          · exact Or.inl ⟨by simp, hp⟩
          · exact Or.inl ⟨by simp, hp⟩

theorem schedulerRun_paused (a : Addr) :
    ∀ n s s2 evs, statusAt s a = some uKernel_PAUSED →
      uKernelSchedulerRun s n = some (s2, evs) →
      a ∉ evs ∧ statusAt s2 a = some uKernel_PAUSED := by
  intro n
  induction n with
  | zero =>
    intro s s2 evs hp h
    unfold uKernelSchedulerRun at h
    rw [Option.some.injEq, Prod.mk.injEq] at h
    obtain ⟨h1, h2⟩ := h
    subst h1; subst h2
    exact ⟨by simp, hp⟩
  | succ n ih =>
    intro s s2 evs hp h
    unfold uKernelSchedulerRun at h
    cases hstep : uKernelSchedulerStep s with
    | none =>
      rw [hstep] at h
      exact Option.noConfusion h
    | some r =>
      obtain ⟨s1, ev⟩ := r
      rw [hstep] at h
      dsimp only at h
      cases hrun : uKernelSchedulerRun s1 n with
      | none =>
        rw [hrun] at h
        exact Option.noConfusion h
      | some r2 =>
        obtain ⟨s2x, evs1⟩ := r2
        rw [hrun] at h
        rw [Option.some.injEq, Prod.mk.injEq] at h
        obtain ⟨h1, h2⟩ := h
        subst h1; subst h2
        obtain ⟨hps1, hev⟩ := schedulerStep_paused s s1 ev a hstep hp
        obtain ⟨hmem, hps2⟩ := ih s1 s2x evs1 hps1 hrun
        refine ⟨?_, hps2⟩
        intro hin
        rcases List.mem_append.mp hin with hin1 | hin2
        · cases ev with
          | none => simp at hin1
          | some x =>
            simp only [Option.toList, List.mem_singleton] at hin1
            exact hev (by rw [hin1])
        · exact hmem hin2

theorem schedulerRun_onetime (a : Addr) :
    ∀ n s s2 evs, statusAt s a = some uKernel_ONETIME →
      uKernelSchedulerRun s n = some (s2, evs) →
      evs.count a ≤ 1 ∧
      (a ∈ evs → statusAt s2 a = some uKernel_PAUSED) ∧
      (a ∉ evs → statusAt s2 a = some uKernel_ONETIME) := by
  intro n
  induction n with
  | zero =>
    intro s s2 evs hp h
    unfold uKernelSchedulerRun at h
    rw [Option.some.injEq, Prod.mk.injEq] at h
    obtain ⟨h1, h2⟩ := h
    subst h1; subst h2
    exact ⟨by simp, fun hin => absurd hin (by simp), fun _ => hp⟩
  | succ n ih =>
    intro s s2 evs hp h
    unfold uKernelSchedulerRun at h
    cases hstep : uKernelSchedulerStep s with
    | none =>
      rw [hstep] at h
      exact Option.noConfusion h
    | some r =>
      obtain ⟨s1, ev⟩ := r
      rw [hstep] at h
      dsimp only at h
      cases hrun : uKernelSchedulerRun s1 n with
      | none =>
        rw [hrun] at h
        exact Option.noConfusion h
      | some r2 =>
        obtain ⟨s2x, evs1⟩ := r2
        rw [hrun] at h
        rw [Option.some.injEq, Prod.mk.injEq] at h
        obtain ⟨h1, h2⟩ := h
        subst h1; subst h2
        rcases schedulerStep_onetime s s1 ev a hstep hp with
          ⟨hev, hone⟩ | ⟨hev, hpaused⟩
        · obtain ⟨hcount, hmempaused, hmemone⟩ := ih s1 s2x evs1 hone hrun
          have htl : ev.toList.count a = 0 := by
            cases ev with
            | none => rfl
            | some x =>
              have hxa : x ≠ a := fun hxa => hev (by rw [hxa])
              simp [List.count_cons, hxa, Ne.symm hxa]
          have hnl : a ∉ ev.toList := List.count_eq_zero.mp htl
          refine ⟨?_, ?_, ?_⟩
          · rw [List.count_append, htl]
            simpa using hcount
          · intro hin
            rcases List.mem_append.mp hin with hin1 | hin2
            · exact absurd hin1 hnl
            · exact hmempaused hin2
          · intro hnin
            exact hmemone (fun hin2 => hnin (List.mem_append.mpr (Or.inr hin2)))
        · subst hev
          obtain ⟨hnotin, hps2⟩ := schedulerRun_paused a n s1 s2x evs1 hpaused hrun
          have hcz : evs1.count a = 0 := List.count_eq_zero.mpr hnotin
          refine ⟨?_, fun _ => hps2, fun hnin => absurd (by simp) hnin⟩
          simp [List.count_append, hcz, List.count_singleton]

theorem addTask_success_status (s : KernelState) (a : Addr) (u i st : Nat)
    (s' : KernelState) (h : uKernelAddTask s (some a) u i st = some (true, s')) :
    statusAt s' a =
      some ((if st > uKernel_ONETIME_IMMEDIATESTART then uKernel_SCHEDULED else st) &&& 0x03) := by
  unfold uKernelAddTask at h
  split at h
  · simp at h
  · dsimp only at h
    split at h
    · split at h
      · exact Option.noConfusion h
      · split at h
        · exact Option.noConfusion h
        · rw [Option.some.injEq, Prod.mk.injEq] at h
          obtain ⟨-, hs⟩ := h
          subst hs
          unfold statusAt
          dsimp only
          rw [heapGet_heapSet_self]
          rfl
    · rw [Option.some.injEq, Prod.mk.injEq] at h
      obtain ⟨-, hs⟩ := h
      subst hs
      unfold statusAt
      dsimp only
      rw [heapGet_heapSet_self]
      rfl


/-! ### Claims -/

/-- C1 is refuted: re-invoking `uKernelInit` on a state holding the ring
H, B, C leaves `pTaskFirst` pointing at the old head (the function never
assigns the static `pTaskFirst`), and the subsequent `uKernelAddTask`
then dereferences the NULL `pTaskSchedule` (result `none`, undefined
behaviour) instead of behaving as a first registration into an empty
ring. -/
theorem C1_counterexample :
    (uKernelInit s3).pTaskFirst = some 1 ∧
    uKernelAddTask (uKernelInit s3) (some 4) 5 100 uKernel_SCHEDULED = none := by
  decide

/-- C1 (amended): `uKernelInit` sets `initialized = true`, zeroes the tick
counter and the task count and NULLs the dispatch cursor, but leaves
`pTaskFirst` and the descriptor storage unchanged; consequently the
post-state ring is empty with both `first` and `cursor` equal to the
empty sentinel only when `pTaskFirst` was already the sentinel (as at
program start), and re-invoking init after registrations does not discard
the previously registered ring. -/
theorem C1_init_amended (s : KernelState) :
    uKernelInit s =
      { s with initialized := true, counterMs := 0, numberTasks := 0,
               pTaskSchedule := none } ∧
    (uKernelInit s).pTaskFirst = s.pTaskFirst ∧
    (uKernelInit s).heap = s.heap ∧
    (s.pTaskFirst = none →
      (uKernelInit s).pTaskFirst = none ∧
      (uKernelInit s).pTaskSchedule = none ∧
      (uKernelInit s).numberTasks = 0 ∧
      (uKernelInit s).initialized = true) :=
  ⟨rfl, rfl, rfl, fun h => ⟨h, rfl, rfl, rfl⟩⟩

/-- C1 (amended) at a concrete input: initializing from the empty-storage
state `sE`, whose ring pointer is already the sentinel, yields the empty
ring the amended claim describes. -/
theorem C1_init_amended_witness :
    (uKernelInit sE).pTaskFirst = none ∧
    (uKernelInit sE).pTaskSchedule = none ∧
    (uKernelInit sE).numberTasks = 0 ∧
    (uKernelInit sE).initialized = true :=
  (C1_init_amended sE).2.2.2 rfl

/-- C2 fails on the code (the spec flags the head-unlink case as
incomplete): removing the head H of the ring H, B, C returns true,
decrements the count to 2 and advances `pTaskFirst` to B, but the heap is
untouched — the predecessor C still links to the removed head (address 1)
instead of B — and three dispatch iterations at a tick when every member
is due fire addresses 1, 2, 3: the removed head is still visited, so
dispatch does not alternate between B and C alone. -/
theorem C2_removeHead_bug :
    uKernelRemoveTask s3 (some 1) =
      some (true, { s3 with numberTasks := 2, pTaskFirst := some 2 }) ∧
    (heapGet s3.heap 3).map (fun d => d.pTaskNext) = some (some 1) ∧
    (uKernelSchedulerRun { s3c with numberTasks := 2, pTaskFirst := some 2 } 3).map
        (fun r => r.2) = some [1, 2, 3] := by
  decide

/-- C4 is refuted: starting at tick `4294967295` a requested delay of
10 ms computes `newTime = 9`; the unsigned busy-wait guard
`_counterMs < newTime` is already false at the starting tick, so the wait
exits at once, although the dispatch loop's signed comparison judges the
target not yet reached — the delay neither uses the signed comparison nor
lasts the full duration when `now + duration` overflows. -/
theorem C4_counterexample :
    uKernelDelayNewTime 4294967295 10 = 9 ∧
    uKernelDelayContinue 4294967295 (uKernelDelayNewTime 4294967295 10) = false ∧
    isDue 4294967295 (uKernelDelayNewTime 4294967295 10) = false := by
  decide

/-- C4 (amended): `uKernelDelayMiliseconds` computes
`newTime = (now + d) mod 2^32` and busy-waits while the counter is
unsigned-less-than `newTime`; when `now + d` does not overflow the 32-bit
width the loop keeps spinning exactly while the counter is below
`now + d`, but when `now + d` overflows, the guard already fails at the
starting counter and no delay occurs. -/
theorem C4_delay_amended (now d c : Nat) (hnow : now < UINT32_MOD)
    (hd : d < UINT32_MOD) :
    (now + d < UINT32_MOD →
        (uKernelDelayContinue c (uKernelDelayNewTime now d) = true ↔
          c % UINT32_MOD < now + d)) ∧
    (UINT32_MOD ≤ now + d →
        uKernelDelayContinue now (uKernelDelayNewTime now d) = false) := by
  unfold uKernelDelayContinue uKernelDelayNewTime add32 UINT32_MOD at *
  constructor
  · intro hlt
    simp only [decide_eq_true_eq]
    omega
  · intro hge
    simp only [decide_eq_false_iff_not]
    omega

/-- C4 (amended) at concrete inputs: a non-overflowing delay from tick 100
of 50 ms is still waiting at tick 120, and an overflowing delay from tick
`4294967290` of 10 ms is already over at its own starting tick. -/
theorem C4_delay_amended_witness :
    (uKernelDelayContinue 120 (uKernelDelayNewTime 100 50) = true ↔
      120 % UINT32_MOD < 100 + 50) ∧
    uKernelDelayContinue 4294967290 (uKernelDelayNewTime 4294967290 10) = false :=
  ⟨(C4_delay_amended 100 50 120 (by decide) (by decide)).1 (by decide),
   (C4_delay_amended 4294967290 10 0 (by decide) (by decide)).2 (by decide)⟩

/-- C5 states the intended interface but the code diverges (the spec
itself flags the condition as a likely copy-paste defect): on the
initialized scheduler `sFull` at full capacity with a non-null registered
descriptor whose stored status is `OneTime`, `uKernelGetTaskStatus`
returns the `uKernel_ERROR` sentinel instead of the stored status, so the
result does depend on `taskCount`. -/
theorem C5_getTaskStatus_capacity :
    sFull.initialized = true ∧
    statusAt sFull 1 = some uKernel_ONETIME ∧
    uKernelGetTaskStatus sFull (some 1) = some uKernel_ERROR ∧
    uKernel_ERROR ≠ uKernel_ONETIME := by
  decide

/-- C8 is refuted: on the uninitialized scheduler `sU`, which still holds
a three-member ring, `uKernelAddTask` with a NULL descriptor returns
false and leaves the ring pointers untouched — the purge is not
unconditional. -/
theorem C8_counterexample :
    uKernelAddTask sU none 5 100 uKernel_SCHEDULED = some (false, sU) ∧
    sU.pTaskFirst = some 1 := by
  decide

/-- C8 (amended): when the scheduler is initialized, the task count is
below capacity and the callback argument is non-null, `uKernelAddTask`
with a NULL descriptor empties the ring (both ring pointers become the
empty sentinel), returns true, and leaves `taskCount` (not reset to
zero), `initialized`, the tick counter and the descriptor storage
unchanged. -/
theorem C8_purge_amended (s : KernelState) (u i st : Nat)
    (h1 : s.initialized = true) (h2 : s.numberTasks ≠ MAX_TASKS_NUMBER)
    (h3 : u ≠ 0) :
    uKernelAddTask s none u i st =
      some (true, { s with pTaskFirst := none, pTaskSchedule := none }) := by
  have hg : ¬ (s.initialized = false ∨ s.numberTasks = MAX_TASKS_NUMBER ∨ u = 0) := by
    simp [h1, h2, h3]
  unfold uKernelAddTask
  rw [if_neg hg]

/-- C8 (amended) at a concrete input: purging the three-member ring of
`s3` empties both ring pointers, returns true and keeps `taskCount = 3`. -/
theorem C8_purge_amended_witness :
    uKernelAddTask s3 none 5 100 uKernel_SCHEDULED =
      some (true, { s3 with pTaskFirst := none, pTaskSchedule := none }) :=
  C8_purge_amended s3 5 100 uKernel_SCHEDULED rfl (by decide) (by decide)

/-- C9 is refuted on its status half: the argument 3 lies outside the
claimed six-value encoding yet registration stores it verbatim rather
than replacing it with `Scheduled`, while `0xFF` (`uKernel_ERROR`, a
member of the claimed encoding) is replaced with `Scheduled` and stored
as 1 rather than stored as given masked to two bits (which would be 3). -/
theorem C9_counterexample :
    (uKernelAddTask sE (some 1) 5 100 3).map
        (fun r => (r.1, statusAt r.2 1)) = some (true, some 3) ∧
    (uKernelAddTask sE (some 1) 5 100 uKernel_ERROR).map
        (fun r => (r.1, statusAt r.2 1)) = some (true, some uKernel_SCHEDULED) ∧
    ¬ (3 = uKernel_PAUSED ∨ 3 = uKernel_SCHEDULED ∨ 3 = uKernel_ONETIME ∨
       3 = uKernel_IMMEDIATESTART ∨ 3 = uKernel_ONETIME_IMMEDIATESTART ∨
       3 = uKernel_ERROR) := by
  decide

/-- C9 (amended): every successful registration stores the interval
argument replaced with the 50 ms default exactly when it lies outside
`[1, MAX_TASK_INTERVAL]`; the status argument is replaced with
`Scheduled` exactly when it is strictly greater than
`uKernel_ONETIME_IMMEDIATESTART` (7) — not when it is outside the
six-value encoding — and the (possibly replaced) status is stored masked
to its two-bit base; the callback is stored as given. -/
theorem C9_normalization_amended (s : KernelState) (a : Addr) (u i st : Nat)
    (s' : KernelState) (h : uKernelAddTask s (some a) u i st = some (true, s')) :
    ∃ d, heapGet s'.heap a = some d ∧
      d.userTasksInterval = (if i < 1 ∨ i > MAX_TASK_INTERVAL then 50 else i) ∧
      d.taskStatus =
        (if st > uKernel_ONETIME_IMMEDIATESTART then uKernel_SCHEDULED else st) &&& 0x03 ∧
      d.taskPointer = u := by
  unfold uKernelAddTask at h
  split at h
  · simp at h
  · dsimp only at h
    split at h
    · split at h
      · exact Option.noConfusion h
      · split at h
        · exact Option.noConfusion h
        · rw [Option.some.injEq, Prod.mk.injEq] at h
          obtain ⟨-, hs⟩ := h
          subst hs
          exact ⟨_, heapGet_heapSet_self _ _ _, rfl, rfl, rfl⟩
    · rw [Option.some.injEq, Prod.mk.injEq] at h
      obtain ⟨-, hs⟩ := h
      subst hs
      exact ⟨_, heapGet_heapSet_self _ _ _, rfl, rfl, rfl⟩

/-- C9 (amended) at a concrete input: registering with interval 0 and
status `0xFF` stores the default interval 50 and status
`Scheduled &&& 3 = 1`. -/
theorem C9_normalization_amended_witness :
    ∃ d, heapGet sE255.heap 1 = some d ∧
      d.userTasksInterval = (if (0 : Nat) < 1 ∨ (0 : Nat) > MAX_TASK_INTERVAL then 50 else 0) ∧
      d.taskStatus =
        (if (255 : Nat) > uKernel_ONETIME_IMMEDIATESTART then uKernel_SCHEDULED else 255) &&& 0x03 ∧
      d.taskPointer = 5 :=
  C9_normalization_amended sE 1 5 0 255 sE255 (by decide)

/-- C10: whenever the task count equals `MAX_TASKS_NUMBER` (255),
`uKernelPauseTask`, `uKernelResumeTask` and `uKernelModifyTask` return
false and `uKernelGetTaskStatus` returns the `uKernel_ERROR` sentinel,
each leaving the whole scheduler state (descriptors included) unchanged —
even for an initialized scheduler and a registered, non-null descriptor:
full capacity blocks all status mutation and query operations, not only
registration. -/
theorem C10_capacity_blocks (s : KernelState) (p : Ptr) (i tst : Nat)
    (h : s.numberTasks = MAX_TASKS_NUMBER) :
    uKernelPauseTask s p = some (false, s) ∧
    uKernelResumeTask s p tst = some (false, s) ∧
    uKernelModifyTask s p i tst = some (false, s) ∧
    uKernelGetTaskStatus s p = some uKernel_ERROR := by
  cases p with
  | none =>
    simp [uKernelPauseTask, uKernelResumeTask, uKernelSetTask,
      uKernelModifyTask, uKernelGetTaskStatus]
  | some a =>
    simp [uKernelPauseTask, uKernelResumeTask, uKernelSetTask,
      uKernelModifyTask, uKernelGetTaskStatus, h]

/-- C10 at a concrete input: on the full-capacity state `sFull`
(initialized, descriptor 1 registered) all three mutation operations
return false with the state unchanged and the status query returns the
`Error` sentinel. -/
theorem C10_capacity_blocks_witness :
    uKernelPauseTask sFull (some 1) = some (false, sFull) ∧
    uKernelResumeTask sFull (some 1) uKernel_SCHEDULED = some (false, sFull) ∧
    uKernelModifyTask sFull (some 1) 100 uKernel_SCHEDULED = some (false, sFull) ∧
    uKernelGetTaskStatus sFull (some 1) = some uKernel_ERROR :=
  C10_capacity_blocks sFull (some 1) 100 uKernel_SCHEDULED (by decide)

/-- C3 is refuted: on the initialized one-task state `sM`,
`uKernelModifyTask` with status `uKernel_IMMEDIATESTART` (5) succeeds and
stores 5 — the `ImmediateStart` modifier bit (0x04) persists in the
descriptor after registration — and registering with the valid argument
`uKernel_ONETIME_IMMEDIATESTART` (7) stores `7 &&& 3 = 3`, which lies
outside `{Paused, Scheduled, OneTime}`. -/
theorem C3_counterexample :
    (uKernelModifyTask sM (some 1) 100 uKernel_IMMEDIATESTART).map
        (fun r => (r.1, statusAt r.2 1)) = some (true, some 5) ∧
    (uKernelAddTask sE (some 1) 5 100 uKernel_ONETIME_IMMEDIATESTART).map
        (fun r => (r.1, statusAt r.2 1)) = some (true, some 3) ∧
    (5 : Nat) &&& 0x04 ≠ 0 ∧
    ¬ (3 = uKernel_PAUSED ∨ 3 = uKernel_SCHEDULED ∨ 3 = uKernel_ONETIME) := by
  decide

/-- C3 (amended): registration stores the status masked to its two-bit
base, so the `ImmediateStart` bit (0x04) is never stored by `addTask` and
the stored value is at most 3 (it can be 3, outside
`{Paused, Scheduled, OneTime}`); a dispatch iteration either preserves a
descriptor's stored status or overwrites it with `Paused`; and a
successful `pauseTask` stores `Paused` — but `modifyTask` and
`resumeTask` are not covered, for they can store the modifier bit (see
the counterexample). -/
theorem C3_status_amended :
    (∀ s a u i st s', uKernelAddTask s (some a) u i st = some (true, s') →
        ∃ v, statusAt s' a = some v ∧ v &&& 0x04 = 0 ∧ v ≤ 3) ∧
    (∀ s s' ev b, uKernelSchedulerStep s = some (s', ev) →
        statusAt s' b = statusAt s b ∨ statusAt s' b = some uKernel_PAUSED) ∧
    (∀ s a s', uKernelPauseTask s (some a) = some (true, s') →
        statusAt s' a = some uKernel_PAUSED) := by
  refine ⟨?_, ?_, ?_⟩
  · intro s a u i st s' h
    refine ⟨_, addTask_success_status s a u i st s' h, ?_, Nat.and_le_right⟩
    rw [Nat.and_assoc, show ((0x03 : Nat) &&& 0x04) = 0 from rfl, Nat.and_zero]
  · intro s s' ev b h
    exact schedulerStep_statusAt s s' ev b h
  · intro s a s' h
    unfold uKernelPauseTask uKernelSetTask at h
    split at h
    · simp at h
    rename_i addr heq
    obtain rfl : a = addr := Option.some.inj heq
    split at h
    · simp at h
    · cases hget : heapGet s.heap a with
      | none =>
        rw [hget] at h
        exact Option.noConfusion h
      | some d =>
        rw [hget] at h
        dsimp only at h
        rw [if_neg (show ¬(uKernel_PAUSED = uKernel_SCHEDULED) by decide)] at h
        rw [Option.some.injEq, Prod.mk.injEq] at h
        obtain ⟨-, hs⟩ := h
        subst hs
        unfold statusAt
        dsimp only
        rw [heapGet_heapSet_self]
        rfl

/-- C3 (amended) at concrete inputs: the registration of a `OneTime` task
into `sE` stores a two-bit status without the modifier bit; the dispatch
step that fires the one-shot task of `sOne` sets its status to `Paused`;
and pausing the task of `sM` stores `Paused`. -/
theorem C3_status_amended_witness :
    (∃ v, statusAt sEone 1 = some v ∧ v &&& 0x04 = 0 ∧ v ≤ 3) ∧
    (statusAt sOnePost 1 = statusAt sOne 1 ∨
      statusAt sOnePost 1 = some uKernel_PAUSED) ∧
    statusAt sMPaused 1 = some uKernel_PAUSED :=
  ⟨C3_status_amended.1 sE 1 5 100 2 sEone (by decide),
   C3_status_amended.2.1 sOne sOnePost (some 1) 1 (by decide),
   C3_status_amended.2.2 sM 1 sMPaused (by decide)⟩

/-- C6: for a non-`Paused` task examined by a dispatch iteration (the
cursor's descriptor, with the ring non-empty), the iteration fires the
task's callback exactly when `tickCounter - nextDueTick`, computed in
32-bit arithmetic and reinterpreted as a signed 32-bit quantity, is
non-negative — the test of uKernel.c:210. -/
theorem C6_due_test (s : KernelState) (a : Addr) (d : uKernelTaskDescriptor)
    (hc : s.pTaskSchedule = some a) (hn : s.numberTasks ≠ 0)
    (hd : heapGet s.heap a = some d) (hp : uKernel_PAUSED < d.taskStatus) :
    ((uKernelSchedulerStep s).map (fun r => r.2) = some (some a) ↔
      0 ≤ toInt32 (sub32 s.counterMs d.plannedTask)) := by
  rw [schedulerStep_eval s a d hc hn hd, if_pos hp]
  by_cases hdue : 0 ≤ toInt32 (sub32 s.counterMs d.plannedTask)
  · have hdk : isDue s.counterMs d.plannedTask = true := decide_eq_true hdue
    rw [hdk, if_pos rfl]
    by_cases h3 : d.taskStatus &&& uKernel_ONETIME ≠ 0
    · rw [if_pos h3]
      simpa using hdue
    · rw [if_neg h3]
      simpa using hdue
  · have hdk : isDue s.counterMs d.plannedTask = false := decide_eq_false hdue
    rw [hdk, if_neg (by simp)]
    simp [hdue]

/-- C6 at the claim's wraparound instance: a task whose `nextDueTick` was
set to `MAX - 5 = 4294967290` just before the 32-bit counter wrapped is
recognized as due — and fired — once the counter reaches 3. -/
theorem C6_due_test_witness :
    (uKernelSchedulerStep sWrap).map (fun r => r.2) = some (some 1) :=
  (C6_due_test sWrap 1 dWrap rfl (by decide) rfl (by decide)).mpr (by decide)

/-- C7: a task whose stored status is `OneTime` (as a registration with
`OneTime` stores, per `addTask_success_status`) fires at most once across
any number of dispatch iterations; once it has fired its status is
`Paused` at the end of every such trace, and while it has not fired its
status is still `OneTime` (dispatch traces contain no mutation
operations); moreover at the first iteration whose cursor reaches it with
the due test passing, the callback is invoked and the status is set to
`Paused` in the same step. -/
theorem C7_oneshot :
    (∀ s a n s2 evs, statusAt s a = some uKernel_ONETIME →
        uKernelSchedulerRun s n = some (s2, evs) →
        evs.count a ≤ 1 ∧
        (a ∈ evs → statusAt s2 a = some uKernel_PAUSED) ∧
        (a ∉ evs → statusAt s2 a = some uKernel_ONETIME)) ∧
    (∀ s a d, s.pTaskSchedule = some a → s.numberTasks ≠ 0 →
        heapGet s.heap a = some d → d.taskStatus = uKernel_ONETIME →
        isDue s.counterMs d.plannedTask = true →
        uKernelSchedulerStep s =
          some ({ s with heap := heapSet s.heap a { d with taskStatus := uKernel_PAUSED },
                         pTaskSchedule := d.pTaskNext }, some a)) :=
  ⟨fun s a n s2 evs h1 h2 => schedulerRun_onetime a n s s2 evs h1 h2,
   fun s a d hc hn hd hst hdue => by
     rw [schedulerStep_eval s a d hc hn hd, hst]
     rw [if_pos (by decide), hdue, if_pos rfl, if_pos (by decide)]⟩

/-- C7 at a concrete input: the single due one-shot task of `sOne` fires
exactly once over four dispatch iterations and ends `Paused`, and the
step that fires it pauses it immediately. -/
theorem C7_oneshot_witness :
    (([1] : List Addr).count 1 ≤ 1 ∧
      ((1 : Addr) ∈ ([1] : List Addr) → statusAt sOnePost 1 = some uKernel_PAUSED) ∧
      ((1 : Addr) ∉ ([1] : List Addr) → statusAt sOnePost 1 = some uKernel_ONETIME)) ∧
    uKernelSchedulerStep sOne =
      some ({ sOne with heap := heapSet sOne.heap 1 { dOne with taskStatus := uKernel_PAUSED },
                        pTaskSchedule := dOne.pTaskNext }, some 1) :=
  ⟨C7_oneshot.1 sOne 1 4 sOnePost [1] (by decide) (by decide),
   C7_oneshot.2 sOne 1 dOne rfl (by decide) (by decide) (by decide) (by decide)⟩

end UKernel
